import Mathlib

/-!
Shallow embedding of the container-selector-resolution subsystem of the
bpfman operator agent (bpfman-operator/controllers/bpfman-agent/containers.go).

External queries are modelled as pure functions supplied in environment
structures: a fixed environment corresponds to one fixed point-in-time set of
query responses (the cluster pod list and the crictl pods / ps / inspect
outputs). Responses are modelled at the level the Go code observes them
through jsonparser: a list of items whose individual string or integer fields
may be absent (a failed GetString or GetInt read is an absent field, and an
index past the end of the array also reads as absent).
-/

/-- One entry of the `crictl pods --name <n> -o json` response, as read by
jsonparser: the `id` and `metadata.name` lookups each either succeed or fail. -/
structure SandboxEntry where
  id : Option String
  name : Option String
deriving DecidableEq, Repr

/-- One entry of the `crictl ps --pod <id> -o json` response: the
`metadata.name` and `id` lookups each either succeed or fail. -/
structure ContainerEntry where
  name : Option String
  id : Option String
deriving DecidableEq, Repr

/-- The `crictl inspect -o json <id>` response: the `info.pid` integer
lookup either succeeds or fails. -/
structure InspectResp where
  pid : Option Int
deriving DecidableEq, Repr

/-- The container-runtime query environment: the three crictl invocations made
by getContainerInfo. An outer `none` is a failed command execution
(cmd.Output returning an error); `some` carries the parsed response. -/
structure CrictlEnv where
  podsQuery : String → Option (List SandboxEntry)
  psQuery : String → Option (List ContainerEntry)
  inspectQuery : String → Option InspectResp

/-- A pod record as consumed from the cluster pod list (v1.Pod): only the
name drives correlation; the rest is carried for logging. -/
structure Pod where
  name : String
  ns : String
  nodeName : String
deriving DecidableEq, Repr

/-- The containerInfo record of containers.go lines 62-66. -/
structure containerInfo where
  podName : String
  containerName : String
  pid : Int
deriving DecidableEq, Repr

/-- The error cases of getContainerInfo: failure of the `crictl pods` command
(line 83), no exactly-matching pod in its response (line 119), failure of the
`crictl ps` command (line 129). -/
inductive CorrelateErr where
  | podsQueryFailed (podName : String)
  | podNotFound (podName : String)
  | psQueryFailed (podName : String)
deriving DecidableEq, Repr

/-- The podIndex loop of lines 92-116: scan the `crictl pods` response in
index order; a failed id read breaks (end of list); a failed name read breaks
(defensive, line 109); otherwise stop at the first entry whose name equals
the target pod name and yield its id. -/
def findPodId (items : List SandboxEntry) (target : String) : Option String :=
  match items with
  | [] => none
  | e :: rest =>
    match e.id with
    | none => none
    | some sbId =>
      match e.name with
      | none => none
      | some nm => if nm = target then some sbId else findPodId rest target

/-- The skip condition of lines 143-147: a container name is skipped exactly
when the allow-list pointer is non-nil, the list is non-empty, and the name
is not a member. -/
def skipsName (containerNames : Option (List String)) (nm : String) : Bool :=
  match containerNames with
  | none => false
  | some l => !l.isEmpty && !l.contains nm

/-- The containerIndex loop of lines 133-176 over one pod: a failed name read
breaks (line 140); a filtered-out name continues (line 146); a failed id read
breaks (line 152); a failed inspect command or unreadable pid continues
(lines 161, 166); otherwise a record is appended. The inspect response is
bound to a fresh variable (line 158 uses a short variable declaration), so
the container-list response being scanned is never altered. -/
def scanContainers (env : CrictlEnv) (containerNames : Option (List String))
    (podName : String) : List ContainerEntry → List containerInfo
  | [] => []
  | c :: rest =>
    match c.name with
    | none => []
    | some nm =>
      if skipsName containerNames nm then
        scanContainers env containerNames podName rest
      else
        match c.id with
        | none => []
        | some cid =>
          match env.inspectQuery cid with
          | none => scanContainers env containerNames podName rest
          | some resp =>
            match resp.pid with
            | none => scanContainers env containerNames podName rest
            | some containerPid =>
              { podName := podName, containerName := nm, pid := containerPid } ::
                scanContainers env containerNames podName rest

/-- The outer pod loop of getContainerInfo (lines 75-178) with the containers
accumulator threaded explicitly; error returns are `(none, some e)`, mirroring
the `return nil, err` statements of the source. -/
def getContainerInfoAux (env : CrictlEnv) (containerNames : Option (List String)) :
    List Pod → List containerInfo → Option (List containerInfo) × Option CorrelateErr
  | [], acc => (some acc, none)
  | p :: rest, acc =>
    match env.podsQuery p.name with
    | none => (none, some (CorrelateErr.podsQueryFailed p.name))
    | some items =>
      match findPodId items p.name with
      | none => (none, some (CorrelateErr.podNotFound p.name))
      | some podId =>
        match env.psQuery podId with
        | none => (none, some (CorrelateErr.psQueryFailed p.name))
        | some conts =>
          getContainerInfoAux env containerNames rest
            (acc ++ scanContainers env containerNames p.name conts)

/-- getContainerInfo (lines 69-181): Go-style pair of result pointer and
error; `(some recs, none)` is success, `(none, some e)` is an error return. -/
def getContainerInfo (env : CrictlEnv) (podList : List Pod)
    (containerNames : Option (List String)) :
    Option (List containerInfo) × Option CorrelateErr :=
  getContainerInfoAux env containerNames podList []

/-- The per-pod correlation as a single expression: the `crictl pods` query,
the exact-match scan, the `crictl ps` query, then the container scan.
`some` exactly when all three pod-level steps succeed. -/
def correlatePod (env : CrictlEnv) (containerNames : Option (List String))
    (p : Pod) : Option (List containerInfo) :=
  (env.podsQuery p.name).bind fun items =>
    (findPodId items p.name).bind fun podId =>
      (env.psQuery podId).map fun conts =>
        scanContainers env containerNames p.name conts

/-- The (name, id) pairs of the container-list response that reach the
inspect step (step 5): computed from the captured `crictl ps` response and
the allow-list alone, with the same break/continue structure as the scan. -/
def eligibleContainers (containerNames : Option (List String)) :
    List ContainerEntry → List (String × String)
  | [] => []
  | c :: rest =>
    match c.name with
    | none => []
    | some nm =>
      if skipsName containerNames nm then
        eligibleContainers containerNames rest
      else
        match c.id with
        | none => []
        | some cid => (nm, cid) :: eligibleContainers containerNames rest

/-- The record produced for an eligible (name, id) pair, determined by the
inspect query alone: `none` when the inspect command fails or the pid field
is unreadable. -/
def inspectRecord (env : CrictlEnv) (podName : String) (pr : String × String) :
    Option containerInfo :=
  match env.inspectQuery pr.2 with
  | none => none
  | some resp =>
    match resp.pid with
    | none => none
    | some containerPid =>
      some { podName := podName, containerName := pr.1, pid := containerPid }

/-- The k8s ListOptions fields set by getPodsForNode; the Go zero value of an
unset string field is the empty string. -/
structure ListOptions where
  fieldSelector : String := ""
  labelSelector : String := ""
deriving DecidableEq, Repr

/-- Lines 40-52 of getPodsForNode as a function of the canonical formatted
selector string (the output of metav1.FormatLabelSelector, an external
function): the "<error>" sentinel is a terminal input error; the field
selector always restricts to the node; the label selector is set only when
the formatted string differs from the "<none>" sentinel. -/
def buildListOptions (selectorString nodeName : String) : Except String ListOptions :=
  if selectorString = "<error>" then
    Except.error ("error parsing selector: " ++ selectorString)
  else if selectorString ≠ "<none>" then
    Except.ok { fieldSelector := "spec.nodeName=" ++ nodeName,
                labelSelector := selectorString }
  else
    Except.ok { fieldSelector := "spec.nodeName=" ++ nodeName }

/-- The cluster API environment: the namespaced pod list query of line 54;
`none` is a failed list call. -/
structure KubeEnv where
  listPods : String → ListOptions → Option (List Pod)

/-- Lines 54-59: issue the list query with the built options and wrap a
failure. -/
def listQuery (env : KubeEnv) (nsp : String) (opts : ListOptions) :
    Except String (List Pod) :=
  match env.listPods nsp opts with
  | none => Except.error "error getting pod list"
  | some pods => Except.ok pods

/-- getPodsForNode (lines 37-60) over the formatted selector string. -/
def getPodsForNode (env : KubeEnv) (selectorString : String) (nsp : String)
    (nodeName : String) : Except String (List Pod) :=
  match buildListOptions selectorString nodeName with
  | Except.error e => Except.error e
  | Except.ok opts => listQuery env nsp opts

/-- The BpfProgram resource as consumed by noContainersOnNode: only its
annotation map matters; a Go map is modelled as an association list with
first-match lookup. -/
structure BpfProgram where
  annotations : List (String × String)
deriving DecidableEq, Repr

/-- Modelled from the spec: the well-known annotation key
internal.UprobeNoContainersOnNode; its defining constant lives in the
internal package, outside the visible source, and only its identity is used. -/
def UprobeNoContainersOnNode : String := "bpfman.io.uprobe.nocontainersonnode"

/-- Annotation lookup on a possibly-nil resource pointer. -/
def lookupAnnotation (bp : BpfProgram) (key : String) : Option String :=
  bp.annotations.lookup key

/-- noContainersOnNode (lines 185-196): false for a nil pointer; otherwise
true exactly when the well-known key is present with value "true". -/
def noContainersOnNode (bpfProgram : Option BpfProgram) : Bool :=
  match bpfProgram with
  | none => false
  | some bp =>
    match lookupAnnotation bp UprobeNoContainersOnNode with
    | some v => v = "true"
    | none => false

/-- Error taxonomy of one resolution pass, with the caller-supplied context
cancellation surfaced distinctly. -/
inductive PassError where
  | selectorParse
  | contextCancelled
  | podListFailed
  | correlate (e : CorrelateErr)
deriving DecidableEq, Repr

/-- One resolution pass, pod listing then correlation, with the context
modelled by its cancellation point: `cancelAt = some t` means the context is
cancelled after t external queries have been issued. The pod list query (the
only query receiving ctx in the source, line 54) is query 0 and fails when
cancellation precedes it; the crictl queries are issued through exec.Command
without the context (lines 79, 125, 157), so they never consult cancelAt. -/
def resolvePass (cancelAt : Option Nat) (kenv : KubeEnv) (cenv : CrictlEnv)
    (selectorString nsp nodeName : String)
    (containerNames : Option (List String)) :
    Option (List containerInfo) × Option PassError :=
  match buildListOptions selectorString nodeName with
  | Except.error _ => (none, some PassError.selectorParse)
  | Except.ok opts =>
    if cancelAt = some 0 then (none, some PassError.contextCancelled)
    else
      match kenv.listPods nsp opts with
      | none => (none, some PassError.podListFailed)
      | some pods =>
        let r := getContainerInfo cenv pods containerNames
        (r.1, r.2.map PassError.correlate)

/-! ### Helper lemmas -/

/-- The container scan factors through the eligible (name, id) pairs: the
pairs are computed from the captured container-list response alone, and the
inspect query only decides which eligible pairs yield records. -/
theorem scanContainers_eq_filterMap (env : CrictlEnv) (names : Option (List String))
    (pn : String) : ∀ conts : List ContainerEntry,
    scanContainers env names pn conts =
      (eligibleContainers names conts).filterMap (inspectRecord env pn)
  | [] => rfl
  | c :: rest => by
    have ih := scanContainers_eq_filterMap env names pn rest
    cases hn : c.name with
    | none => simp [scanContainers, eligibleContainers, hn]
    | some nm =>
      by_cases hs : skipsName names nm
      · simp [scanContainers, eligibleContainers, hn, hs, ih]
      · cases hid : c.id with
        | none => simp [scanContainers, eligibleContainers, hn, hs, hid]
        | some cid =>
          cases hins : env.inspectQuery cid with
          | none =>
            simp [scanContainers, eligibleContainers, hn, hs, hid, hins,
              inspectRecord, ih]
          | some resp =>
            cases hp : resp.pid with
            | none =>
              simp [scanContainers, eligibleContainers, hn, hs, hid, hins, hp,
                inspectRecord, ih]
            | some containerPid =>
              simp [scanContainers, eligibleContainers, hn, hs, hid, hins, hp,
                inspectRecord, ih]

/-- On a response whose entries all carry both fields, the sandbox scan is
exactly the first entry whose name equals the target, projected to its id. -/
theorem findPodId_eq_find (target : String) : ∀ items : List SandboxEntry,
    (∀ e ∈ items, e.id.isSome ∧ e.name.isSome) →
    findPodId items target =
      (items.find? fun e => decide (e.name = some target)).bind SandboxEntry.id
  | [], _ => rfl
  | e :: rest, hwf => by
    have ih := findPodId_eq_find target rest fun x hx => hwf x (List.mem_cons_of_mem e hx)
    obtain ⟨hid, hnm⟩ := hwf e (List.mem_cons_self e rest)
    obtain ⟨sbId, hsb⟩ := Option.isSome_iff_exists.mp hid
    obtain ⟨nm, hn⟩ := Option.isSome_iff_exists.mp hnm
    by_cases hcase : nm = target
    · subst hcase
      simp [findPodId, hsb, hn, List.find?_cons]
    · have : (some nm = some target) = False := by simp [hcase]
      simp [findPodId, hsb, hn, List.find?_cons, this, hcase, ih]

/-- An error result of the accumulator loop always carries a nil record
pointer: every error return in the source is a bare `return nil, err`. -/
theorem getContainerInfoAux_error_none (env : CrictlEnv)
    (names : Option (List String)) : ∀ (pods : List Pod) (acc : List containerInfo),
    ((getContainerInfoAux env names pods acc).2).isSome →
    (getContainerInfoAux env names pods acc).1 = none
  | [], acc => by simp [getContainerInfoAux]
  | p :: rest, acc => by
    cases hq : env.podsQuery p.name with
    | none => simp [getContainerInfoAux, hq]
    | some items =>
      cases hf : findPodId items p.name with
      | none => simp [getContainerInfoAux, hq, hf]
      | some podId =>
        cases hp : env.psQuery podId with
        | none => simp [getContainerInfoAux, hq, hf, hp]
        | some conts =>
          have ih := getContainerInfoAux_error_none env names rest
            (acc ++ scanContainers env names p.name conts)
          simpa [getContainerInfoAux, hq, hf, hp] using ih

/-- A successful accumulator loop returns the accumulator followed by the
per-pod correlations, joined in input pod order. -/
theorem getContainerInfoAux_ok_eq (env : CrictlEnv)
    (names : Option (List String)) : ∀ (pods : List Pod) (acc recs : List containerInfo),
    getContainerInfoAux env names pods acc = (some recs, none) →
    recs = acc ++ (pods.map fun p => (correlatePod env names p).getD []).flatten
  | [], acc, recs, h => by
    simp [getContainerInfoAux] at h
    simp [h.symm]
  | p :: rest, acc, recs, h => by
    cases hq : env.podsQuery p.name with
    | none => simp [getContainerInfoAux, hq] at h
    | some items =>
      cases hf : findPodId items p.name with
      | none => simp [getContainerInfoAux, hq, hf] at h
      | some podId =>
        cases hp : env.psQuery podId with
        | none => simp [getContainerInfoAux, hq, hf, hp] at h
        | some conts =>
          rw [getContainerInfoAux] at h
          rw [hq] at h
          simp only [hf, hp] at h
          have ih := getContainerInfoAux_ok_eq env names rest
            (acc ++ scanContainers env names p.name conts) recs h
          rw [ih]
          simp [correlatePod, hq, hf, hp, List.append_assoc]

/-- A successful per-pod correlation is a container scan of some
container-list response. -/
theorem correlatePod_some (env : CrictlEnv) (names : Option (List String))
    (p : Pod) (recsP : List containerInfo)
    (h : correlatePod env names p = some recsP) :
    ∃ conts, env.psQuery ((findPodId ((env.podsQuery p.name).getD []) p.name).getD "")
        = some conts ∧ recsP = scanContainers env names p.name conts := by
  cases hq : env.podsQuery p.name with
  | none => simp [correlatePod, hq] at h
  | some items =>
    cases hf : findPodId items p.name with
    | none => simp [correlatePod, hq, hf] at h
    | some podId =>
      cases hp : env.psQuery podId with
      | none => simp [correlatePod, hq, hf, hp] at h
      | some conts =>
        simp [correlatePod, hq, hf, hp] at h
        exact ⟨conts, by simp [hq, hf, hp], h.symm⟩

/-- With a non-empty allow-list, every record the container scan produces
carries an allowed container name. -/
theorem scanContainers_name_mem (env : CrictlEnv) (l : List String)
    (hl : l ≠ []) (pn : String) : ∀ (conts : List ContainerEntry)
    (r : containerInfo), r ∈ scanContainers env (some l) pn conts →
    r.containerName ∈ l
  | [], r, hr => by simp [scanContainers] at hr
  | c :: rest, r, hr => by
    have ih := scanContainers_name_mem env l hl pn rest r
    cases hn : c.name with
    | none => simp [scanContainers, hn] at hr
    | some nm =>
      by_cases hs : skipsName (some l) nm

      case pos =>
        simp only [scanContainers, hn, hs, if_true] at hr
        exact ih hr

      case neg =>
        have hs' : skipsName (some l) nm = false := by simpa using hs
        have hmem : nm ∈ l := by
          simp only [skipsName, Bool.and_eq_false_iff, Bool.not_eq_false'] at hs'
          rcases hs' with hemp | hcon
          · exact absurd (List.isEmpty_iff.mp hemp) hl
          · exact List.elem_iff.mp hcon
        cases hid : c.id with
        | none => simp [scanContainers, hn, hs', hid] at hr
        | some cid =>
          cases hins : env.inspectQuery cid with
          | none =>
            simp only [scanContainers, hn, hs', hid, hins, Bool.false_eq_true,
              if_false] at hr
            exact ih hr
          | some resp =>
            cases hp : resp.pid with
            | none =>
              simp only [scanContainers, hn, hs', hid, hins, hp,
                Bool.false_eq_true, if_false] at hr
              exact ih hr
            | some containerPid =>
              simp only [scanContainers, hn, hs', hid, hins, hp,
                Bool.false_eq_true, if_false, List.mem_cons] at hr
              rcases hr with rfl | hr
              · exact hmem
              · exact ih hr

/-! ### Concrete environments for closed evaluations -/

/-- A cluster environment whose pod list query always returns the single pod
"pod-a" on node1. -/
def kenvA : KubeEnv where
  listPods := fun _ _ => some [{ name := "pod-a", ns := "default", nodeName := "node1" }]

/-- A runtime environment realising the end-to-end scenario: pod "pod-a" has
sandbox "sb1" holding container "c1" named "main" with pid 4242; every other
query fails. -/
def cenvA : CrictlEnv where
  podsQuery := fun s =>
    if s = "pod-a" then some [{ id := some "sb1", name := some "pod-a" }] else none
  psQuery := fun s =>
    if s = "sb1" then some [{ name := some "main", id := some "c1" }] else none
  inspectQuery := fun s =>
    if s = "c1" then some { pid := some 4242 } else none

/-- A runtime environment whose pods query returns both "worker-10" and
"worker-1" for every name filter, as a substring-style filter would. -/
def sandboxesW : List SandboxEntry :=
  [{ id := some "sb10", name := some "worker-10" },
   { id := some "sb1", name := some "worker-1" }]

/-- Runtime environment for the tie-break scenario. -/
def cenvW : CrictlEnv where
  podsQuery := fun _ => some sandboxesW
  psQuery := fun _ => none
  inspectQuery := fun _ => none

/-- A runtime environment where inspecting "c1" fails while "c2" reports
pid 7. -/
def cenvB : CrictlEnv where
  podsQuery := fun _ => none
  psQuery := fun _ => none
  inspectQuery := fun s => if s = "c2" then some { pid := some 7 } else none

/-- A runtime environment with two pods: "pod-a" resolves fully to pid 4242,
while the container list of "pod-c" starts with an entry whose name field is
unreadable. -/
def cenvC : CrictlEnv where
  podsQuery := fun s =>
    if s = "pod-a" then some [{ id := some "sbA", name := some "pod-a" }]
    else if s = "pod-c" then some [{ id := some "sbC", name := some "pod-c" }]
    else none
  psQuery := fun s =>
    if s = "sbA" then some [{ name := some "main", id := some "c1" }]
    else if s = "sbC" then
      some [{ name := none, id := none }, { name := some "x", id := some "c9" }]
    else none
  inspectQuery := fun s =>
    if s = "c1" then some { pid := some 4242 } else none

/-! ### Claim theorems -/

/-- C10: within one pod, the container scan factors as a filterMap over the
eligible (name, id) pairs, and those pairs are computed from the single
captured container-list response and the allow-list alone; the inspect query
issued for one container therefore cannot change which subsequent containers
are seen or recorded (its response is bound to a fresh variable, source line
158). -/
theorem inspect_cannot_alter_scanned_response (env : CrictlEnv)
    (names : Option (List String)) (pn : String) (conts : List ContainerEntry) :
    scanContainers env names pn conts =
      (eligibleContainers names conts).filterMap (inspectRecord env pn) :=
  scanContainers_eq_filterMap env names pn conts

/-- C7: whenever getContainerInfo returns an error, the record pointer it
returns is nil: records already accumulated for earlier pods are discarded,
never returned alongside the error as a truncated result. -/
theorem error_returns_no_records (env : CrictlEnv) (pods : List Pod)
    (names : Option (List String)) (e : CorrelateErr)
    (h : (getContainerInfo env pods names).2 = some e) :
    (getContainerInfo env pods names).1 = none := by
  have := getContainerInfoAux_error_none env names pods []
  simp only [getContainerInfo] at h ⊢
  exact this (by simp [h])

/-- C7 witness: "pod-a" resolves to a record, then the pods query for
"pod-b" fails; the whole call returns the error with a nil record pointer,
discarding the "pod-a" record (which a one-pod call does produce). -/
theorem error_returns_no_records_witness :
    (getContainerInfo cenvA
        [{ name := "pod-a", ns := "default", nodeName := "node1" },
         { name := "pod-b", ns := "default", nodeName := "node1" }] none).2 =
      some (CorrelateErr.podsQueryFailed "pod-b") ∧
    (getContainerInfo cenvA
        [{ name := "pod-a", ns := "default", nodeName := "node1" },
         { name := "pod-b", ns := "default", nodeName := "node1" }] none).1 = none ∧
    (getContainerInfo cenvA
        [{ name := "pod-a", ns := "default", nodeName := "node1" }] none).1 =
      some [{ podName := "pod-a", containerName := "main", pid := 4242 }] :=
  ⟨by decide,
   error_returns_no_records cenvA
     [{ name := "pod-a", ns := "default", nodeName := "node1" },
      { name := "pod-b", ns := "default", nodeName := "node1" }] none
     (CorrelateErr.podsQueryFailed "pod-b") (by decide),
   by decide⟩

/-- C8: on fixed query responses a successful call returns exactly the
per-pod correlations joined in input pod order, each itself the in-order
scan of the runtime container listing; since the embedding is a pure
function of the environment, a second call on identical responses returns
the identical sequence. -/
theorem correlation_output_ordered (env : CrictlEnv) (pods : List Pod)
    (names : Option (List String)) (recs : List containerInfo)
    (h : getContainerInfo env pods names = (some recs, none)) :
    recs = (pods.map fun p => (correlatePod env names p).getD []).flatten := by
  simpa using getContainerInfoAux_ok_eq env names pods [] recs h

/-- C8 witness: the end-to-end scenario evaluates to the single record with
pid 4242, equal to the joined per-pod correlations. -/
theorem correlation_output_ordered_witness :
    getContainerInfo cenvA
        [{ name := "pod-a", ns := "default", nodeName := "node1" }] none =
      (some [{ podName := "pod-a", containerName := "main", pid := 4242 }], none) ∧
    [{ podName := "pod-a", containerName := "main", pid := 4242 }] =
      (([{ name := "pod-a", ns := "default", nodeName := "node1" }] : List Pod).map
          fun p => (correlatePod cenvA none p).getD []).flatten :=
  ⟨by decide,
   correlation_output_ordered cenvA
     [{ name := "pod-a", ns := "default", nodeName := "node1" }] none
     [{ podName := "pod-a", containerName := "main", pid := 4242 }] (by decide)⟩

/-- C1: over a pods-query response whose entries all carry id and name, the
sandbox scan selects exactly the first entry whose reported name equals the
target pod name; and when no entry matches exactly, getContainerInfo returns
the pod-not-found error for that pod instead of omitting it. -/
theorem exact_match_select_or_not_found (env : CrictlEnv)
    (names : Option (List String)) (p : Pod) (items : List SandboxEntry)
    (hq : env.podsQuery p.name = some items)
    (hwf : ∀ e ∈ items, e.id.isSome ∧ e.name.isSome) :
    findPodId items p.name =
      (items.find? fun e => decide (e.name = some p.name)).bind SandboxEntry.id
    ∧ ((∀ e ∈ items, e.name ≠ some p.name) →
        getContainerInfo env [p] names =
          (none, some (CorrelateErr.podNotFound p.name))) := by
  refine ⟨findPodId_eq_find p.name items hwf, fun hno => ?_⟩
  have hfind : (items.find? fun e => decide (e.name = some p.name)) = none :=
    List.find?_eq_none.mpr fun e he => by simpa using hno e he
  have hnone : findPodId items p.name = none := by
    rw [findPodId_eq_find p.name items hwf, hfind]
    rfl
  simp [getContainerInfo, getContainerInfoAux, hq, hnone]

/-- C1 witness: with the substring-style response listing "worker-10" before
"worker-1", the scan for target "worker-1" selects "worker-1" (sandbox
"sb1"), and a target absent from the response yields the pod-not-found
error. -/
theorem exact_match_select_or_not_found_witness :
    cenvW.podsQuery "worker-1" = some sandboxesW ∧
    (∀ e ∈ sandboxesW, e.id.isSome ∧ e.name.isSome) ∧
    (findPodId sandboxesW "worker-1" =
        (sandboxesW.find? fun e => decide (e.name = some "worker-1")).bind
          SandboxEntry.id
      ∧ ((∀ e ∈ sandboxesW, e.name ≠ some "worker-1") →
          getContainerInfo cenvW
              [{ name := "worker-1", ns := "default", nodeName := "node1" }] none =
            (none, some (CorrelateErr.podNotFound "worker-1")))) ∧
    findPodId sandboxesW "worker-1" = some "sb1" ∧
    getContainerInfo cenvW
        [{ name := "worker-2", ns := "default", nodeName := "node1" }] none =
      (none, some (CorrelateErr.podNotFound "worker-2")) :=
  ⟨by decide, by decide,
   exact_match_select_or_not_found cenvW none
     { name := "worker-1", ns := "default", nodeName := "node1" } sandboxesW
     (by decide) (by decide),
   by decide,
   (exact_match_select_or_not_found cenvW none
     { name := "worker-2", ns := "default", nodeName := "node1" } sandboxesW
     (by decide) (by decide)).2 (by decide)⟩

/-- C2: with a non-empty allow-list, every record a successful call produces
carries a container name from the list (other names are skipped without
error); with a nil or empty allow-list the skip condition never fires, so
every runtime-reported container of a matched pod is eligible. -/
theorem allow_list_semantics (env : CrictlEnv) :
    (∀ l : List String, l ≠ [] → ∀ (pods : List Pod) (recs : List containerInfo),
        getContainerInfo env pods (some l) = (some recs, none) →
        ∀ r ∈ recs, r.containerName ∈ l)
    ∧ (∀ nm, skipsName none nm = false ∧ skipsName (some []) nm = false) := by
  constructor
  · intro l hl pods recs h r hr
    have hrec := getContainerInfoAux_ok_eq env (some l) pods [] recs h
    rw [hrec] at hr
    simp only [List.nil_append, List.mem_flatten, List.mem_map] at hr
    obtain ⟨recsPart, ⟨pp, hpp, rfl⟩, hrmem⟩ := hr
    cases hcp : correlatePod env (some l) pp with
    | none => rw [hcp] at hrmem; simp at hrmem
    | some recsP =>
      rw [hcp] at hrmem
      simp only [Option.getD_some] at hrmem
      obtain ⟨conts, _, hscan⟩ := correlatePod_some env (some l) pp recsP hcp
      exact scanContainers_name_mem env l hl pp.name conts r (hscan ▸ hrmem)
  · intro nm
    exact ⟨rfl, rfl⟩

/-- C2 witness: with allow-list ["main"] the produced record names lie in
the list; with allow-list ["sidecar"] the same pod yields the empty record
list and no error. -/
theorem allow_list_semantics_witness :
    (["main"] : List String) ≠ [] ∧
    getContainerInfo cenvA
        [{ name := "pod-a", ns := "default", nodeName := "node1" }] (some ["main"]) =
      (some [{ podName := "pod-a", containerName := "main", pid := 4242 }], none) ∧
    (∀ r ∈ [{ podName := "pod-a", containerName := "main", pid := 4242 : containerInfo }],
        r.containerName ∈ (["main"] : List String)) ∧
    getContainerInfo cenvA
        [{ name := "pod-a", ns := "default", nodeName := "node1" }] (some ["sidecar"]) =
      (some [], none) :=
  ⟨by decide, by decide,
   (allow_list_semantics cenvA).1 ["main"] (by decide)
     [{ name := "pod-a", ns := "default", nodeName := "node1" }]
     [{ podName := "pod-a", containerName := "main", pid := 4242 }] (by decide),
   by decide⟩

/-- C3: noContainersOnNode is true exactly when the resource pointer is
non-nil and the well-known annotation key is present with value exactly
"true"; it is false for "True", the empty string, an absent key, and a nil
resource pointer. -/
theorem annotation_true_literal_semantics :
    (∀ bp, noContainersOnNode bp = true ↔
        ∃ p, bp = some p ∧ lookupAnnotation p UprobeNoContainersOnNode = some "true")
    ∧ noContainersOnNode none = false
    ∧ noContainersOnNode (some { annotations := [(UprobeNoContainersOnNode, "True")] }) = false
    ∧ noContainersOnNode (some { annotations := [(UprobeNoContainersOnNode, "")] }) = false
    ∧ noContainersOnNode (some { annotations := [] }) = false := by
  refine ⟨fun bp => ?_, by decide, by decide, by decide, by decide⟩
  cases bp with
  | none => simp [noContainersOnNode]
  | some p =>
    cases hv : lookupAnnotation p UprobeNoContainersOnNode with
    | none => simp [noContainersOnNode, hv]
    | some v => simp [noContainersOnNode, hv]

/-- C4: when the canonical formatted selector is the universal "<none>"
sentinel, getPodsForNode issues the list query with only the node field
constraint and no label constraint; the built options carry a label
constraint only for a non-trivial formatted selector (and then exactly that
selector string). -/
theorem universal_selector_sends_no_label (kenv : KubeEnv) (nsp nodeName : String) :
    getPodsForNode kenv "<none>" nsp nodeName =
      listQuery kenv nsp
        { fieldSelector := "spec.nodeName=" ++ nodeName, labelSelector := "" }
    ∧ (∀ (s : String) (opts : ListOptions),
        buildListOptions s nodeName = Except.ok opts →
        opts.labelSelector ≠ "" →
        s ≠ "<none>" ∧ s ≠ "<error>" ∧ opts.labelSelector = s) := by
  constructor
  · rfl
  · intro s opts hok hne
    by_cases he : s = "<error>"
    · subst he
      simp [buildListOptions] at hok
    · by_cases hn : s = "<none>"
      · subst hn
        have hcond : ("<none>" : String) ≠ "<error>" := by decide
        simp [buildListOptions, hcond] at hok
        rw [← hok] at hne
        simp at hne
      · refine ⟨hn, he, ?_⟩
        simp [buildListOptions, he, hn] at hok
        rw [← hok]

/-- C4 witness: the universal sentinel builds options with an empty label
selector, while the non-trivial selector "app=x" is transmitted verbatim. -/
theorem universal_selector_sends_no_label_witness :
    getPodsForNode kenvA "<none>" "default" "node1" =
      listQuery kenvA "default"
        { fieldSelector := "spec.nodeName=node1", labelSelector := "" } ∧
    buildListOptions "app=x" "node1" =
      Except.ok { fieldSelector := "spec.nodeName=node1", labelSelector := "app=x" } ∧
    ("app=x" ≠ "<none>" ∧ "app=x" ≠ "<error>" ∧
      ({ fieldSelector := "spec.nodeName=node1", labelSelector := "app=x" } :
        ListOptions).labelSelector = "app=x") :=
  ⟨(universal_selector_sends_no_label kenvA "default" "node1").1,
   by rfl,
   (universal_selector_sends_no_label kenvA "default" "node1").2 "app=x"
     { fieldSelector := "spec.nodeName=node1", labelSelector := "app=x" }
     (by rfl) (by decide)⟩

/-- C5: when the inspect command for a container fails, or its pid field is
unreadable, the scan of that pod skips exactly that container and continues
with the rest of the list; no error is produced for this condition. -/
theorem inspect_failure_skips_one_container (env : CrictlEnv)
    (names : Option (List String)) (pn nm cid : String) (c : ContainerEntry)
    (rest : List ContainerEntry) (hn : c.name = some nm)
    (hs : skipsName names nm = false) (hi : c.id = some cid)
    (hfail : env.inspectQuery cid = none ∨
      ∃ resp, env.inspectQuery cid = some resp ∧ resp.pid = none) :
    scanContainers env names pn (c :: rest) = scanContainers env names pn rest := by
  rcases hfail with hf | ⟨resp, hf, hp⟩
  · simp [scanContainers, hn, hs, hi, hf]
  · simp [scanContainers, hn, hs, hi, hf, hp]

/-- C5 witness: inspecting "c1" fails, so "main" is skipped while the later
container "side" still yields its record with pid 7. -/
theorem inspect_failure_skips_one_container_witness :
    ({ name := some "main", id := some "c1" } : ContainerEntry).name = some "main" ∧
    skipsName none "main" = false ∧
    ({ name := some "main", id := some "c1" } : ContainerEntry).id = some "c1" ∧
    (cenvB.inspectQuery "c1" = none ∨
      ∃ resp, cenvB.inspectQuery "c1" = some resp ∧ resp.pid = none) ∧
    scanContainers cenvB none "pod-a"
        [{ name := some "main", id := some "c1" },
         { name := some "side", id := some "c2" }] =
      scanContainers cenvB none "pod-a" [{ name := some "side", id := some "c2" }] ∧
    scanContainers cenvB none "pod-a" [{ name := some "side", id := some "c2" }] =
      [{ podName := "pod-a", containerName := "side", pid := 7 }] :=
  ⟨rfl, rfl, rfl, Or.inl (by decide),
   inspect_failure_skips_one_container cenvB none "pod-a" "main" "c1"
     { name := some "main", id := some "c1" }
     [{ name := some "side", id := some "c2" }] rfl rfl rfl (Or.inl (by decide)),
   by decide⟩

/-- C6: an unreadable name or id field ends the scan of that pod's container
list as end-of-list rather than an error, and the pod loop then proceeds to
the next pod carrying the records accumulated so far. -/
theorem missing_field_ends_scan_keeps_records (env : CrictlEnv)
    (names : Option (List String)) :
    (∀ (pn : String) (c : ContainerEntry) (rest : List ContainerEntry),
        c.name = none → scanContainers env names pn (c :: rest) = [])
    ∧ (∀ (pn : String) (c : ContainerEntry) (rest : List ContainerEntry) (nm : String),
        c.name = some nm → skipsName names nm = false → c.id = none →
        scanContainers env names pn (c :: rest) = [])
    ∧ (∀ (p : Pod) (rest : List Pod) (acc : List containerInfo)
        (items : List SandboxEntry) (podId : String) (conts : List ContainerEntry),
        env.podsQuery p.name = some items →
        findPodId items p.name = some podId →
        env.psQuery podId = some conts →
        getContainerInfoAux env names (p :: rest) acc =
          getContainerInfoAux env names rest
            (acc ++ scanContainers env names p.name conts)) := by
  refine ⟨?_, ?_, ?_⟩
  · intro pn c rest hn
    simp [scanContainers, hn]
  · intro pn c rest nm hn hs hid
    simp [scanContainers, hn, hs, hid]
  · intro p rest acc items podId conts hq hf hp
    simp [getContainerInfoAux, hq, hf, hp]

/-- C6 witness: the container list of "pod-c" opens with an entry whose name
field is unreadable, so its scan yields no records, yet a call over
["pod-a", "pod-c"] succeeds and keeps the "pod-a" record. -/
theorem missing_field_ends_scan_keeps_records_witness :
    ({ name := none, id := none } : ContainerEntry).name = none ∧
    scanContainers cenvC none "pod-c"
        [{ name := none, id := none }, { name := some "x", id := some "c9" }] = [] ∧
    cenvC.podsQuery "pod-c" = some [{ id := some "sbC", name := some "pod-c" }] ∧
    findPodId [{ id := some "sbC", name := some "pod-c" }] "pod-c" = some "sbC" ∧
    cenvC.psQuery "sbC" =
      some [{ name := none, id := none }, { name := some "x", id := some "c9" }] ∧
    getContainerInfoAux cenvC none
        [{ name := "pod-c", ns := "default", nodeName := "node1" }]
        [{ podName := "pod-a", containerName := "main", pid := 4242 }] =
      getContainerInfoAux cenvC none []
        ([{ podName := "pod-a", containerName := "main", pid := 4242 }] ++
          scanContainers cenvC none "pod-c"
            [{ name := none, id := none }, { name := some "x", id := some "c9" }]) ∧
    getContainerInfo cenvC
        [{ name := "pod-a", ns := "default", nodeName := "node1" },
         { name := "pod-c", ns := "default", nodeName := "node1" }] none =
      (some [{ podName := "pod-a", containerName := "main", pid := 4242 }], none) :=
  ⟨rfl,
   (missing_field_ends_scan_keeps_records cenvC none).1 "pod-c"
     { name := none, id := none } [{ name := some "x", id := some "c9" }] rfl,
   by decide, by decide, by decide,
   (missing_field_ends_scan_keeps_records cenvC none).2.2
     { name := "pod-c", ns := "default", nodeName := "node1" } []
     [{ podName := "pod-a", containerName := "main", pid := 4242 }]
     [{ id := some "sbC", name := some "pod-c" }] "sbC"
     [{ name := none, id := none }, { name := some "x", id := some "c9" }]
     (by decide) (by decide) (by decide),
   by decide⟩

/-- C9 counterexample: the claim that every query receives the caller
context and that a cancelled context yields a cancellation error fails on
the code: with the context cancelled immediately after the pod list query
(cancellation point 1, before any runtime query), the crictl queries —
issued through exec.Command without the context — still run, and the pass
returns a data result, not a cancellation error. -/
theorem context_cancellation_counterexample :
    resolvePass (some 1) kenvA cenvA "<none>" "default" "node1" none =
      (some [{ podName := "pod-a", containerName := "main", pid := 4242 }], none) := by
  decide

/-- C9 amended: only the cluster pod list query receives the caller
context — cancellation before it yields a cancellation error and no data —
while the runtime crictl queries are issued without the context, so the
outcome of a pass whose pod list query has completed is identical to that of
an uncancelled pass. -/
theorem context_reaches_only_pod_list_query (kenv : KubeEnv) (cenv : CrictlEnv)
    (s nsp node : String) (names : Option (List String)) :
    (s ≠ "<error>" →
      resolvePass (some 0) kenv cenv s nsp node names =
        (none, some PassError.contextCancelled))
    ∧ (∀ t : Nat, resolvePass (some (t + 1)) kenv cenv s nsp node names =
        resolvePass none kenv cenv s nsp node names) := by
  constructor
  · intro hs
    by_cases hn : s = "<none>"
    · subst hn
      have hcond : ("<none>" : String) ≠ "<error>" := by decide
      simp [resolvePass, buildListOptions, hcond]
    · simp [resolvePass, buildListOptions, hs, hn]
  · intro t
    cases hb : buildListOptions s node with
    | error e => simp [resolvePass, hb]
    | ok opts => simp [resolvePass, hb]

/-- C9 witness for the amended statement: cancellation before the pod list
query aborts the pass with a cancellation error, while cancellation right
after it leaves the pass result identical to the uncancelled pass. -/
theorem context_reaches_only_pod_list_query_witness :
    ("<none>" : String) ≠ "<error>" ∧
    resolvePass (some 0) kenvA cenvA "<none>" "default" "node1" none =
      (none, some PassError.contextCancelled) ∧
    resolvePass (some (0 + 1)) kenvA cenvA "<none>" "default" "node1" none =
      resolvePass none kenvA cenvA "<none>" "default" "node1" none :=
  ⟨by decide,
   (context_reaches_only_pod_list_query kenvA cenvA "<none>" "default" "node1" none).1
     (by decide),
   (context_reaches_only_pod_list_query kenvA cenvA "<none>" "default" "node1" none).2 0⟩
